import Mathlib

/-!
Shallow embedding of the laser-eyes-simulator core (src/main.js).

Numbers are modelled by real numbers.  Three.js `Vector3` operations
(`subVectors`, `crossVectors`, `length`, `normalize`) are modelled after the
three.js sources; note that three.js `normalize` divides by `length() || 1`,
so the zero vector normalizes to itself rather than dividing by zero.

A MediaPipe face observation is modelled as a partial map from landmark
indices to landmarks (`landmarks[i]` in JS yields `undefined`, i.e. `none`,
when the index is absent).  The mutable scene state that the per-frame
update touches (the two laser markers and the `isLaserMode` flag) is an
explicit `AppState` record threaded through the event handlers.
-/

/-- A three.js `Vector3`, with real components. -/
@[ext]
structure Vec3 where
  x : ℝ
  y : ℝ
  z : ℝ

/-- `new THREE.Vector3().subVectors(a, b)`. -/
def Vec3.sub (a b : Vec3) : Vec3 :=
  ⟨a.x - b.x, a.y - b.y, a.z - b.z⟩

/-- Euclidean dot product, as in three.js `Vector3.dot`. -/
def Vec3.dot (a b : Vec3) : ℝ :=
  a.x * b.x + a.y * b.y + a.z * b.z

/-- `new THREE.Vector3().crossVectors(a, b)`. -/
def Vec3.cross (a b : Vec3) : Vec3 :=
  ⟨a.y * b.z - a.z * b.y, a.z * b.x - a.x * b.z, a.x * b.y - a.y * b.x⟩

/-- three.js `Vector3.length()`: the Euclidean norm. -/
noncomputable def Vec3.length (v : Vec3) : ℝ :=
  Real.sqrt (v.dot v)

/-- three.js `Vector3.normalize()`, which is `divideScalar(this.length() || 1)`:
when the length is zero the vector is divided by `1`, i.e. left unchanged,
so normalization never divides by zero. -/
noncomputable def Vec3.normalize (v : Vec3) : Vec3 :=
  let d : ℝ := if v.length = 0 then 1 else v.length
  ⟨v.x * (1 / d), v.y * (1 / d), v.z * (1 / d)⟩

/-- A MediaPipe normalized landmark `{x, y, z}`. -/
structure Landmark where
  x : ℝ
  y : ℝ
  z : ℝ

/-- A face observation: JS array indexing `landmarks[i]`, which yields
`undefined` (`none`) when the index is absent. -/
def FaceObservation : Type :=
  Nat → Option Landmark

/-- The fixed reference depth `const baseDepth = 5` in `mapToWorld`. -/
def baseDepth : ℝ := 5

/-- `visibleHeight = 2 * Math.tan(vFOV / 2) * baseDepth` where
`vFOV = camera.fov * Math.PI / 180` (the camera holds `fov` in degrees).
The source fixes the depth to `baseDepth`; it is exposed here as the
parameter `d` (the spec's reference depth), instantiated with `baseDepth`
at the call sites in `updateMask`. -/
noncomputable def visibleHeight (fov d : ℝ) : ℝ :=
  2 * Real.tan ((fov * Real.pi / 180) / 2) * d

/-- `visibleWidth = visibleHeight * camera.aspect`. -/
noncomputable def visibleWidth (fov aspect d : ℝ) : ℝ :=
  visibleHeight fov d * aspect

/-- The coordinate mapper `mapToWorld` from `updateMask`:
`x = -(landmark.x - 0.5) * visibleWidth`,
`y = -(landmark.y - 0.5) * visibleHeight`,
`z = -landmark.z * visibleWidth`. -/
noncomputable def mapToWorld (fov aspect d : ℝ) (landmark : Landmark) : Vec3 :=
  ⟨-(landmark.x - 0.5) * visibleWidth fov aspect d,
   -(landmark.y - 0.5) * visibleHeight fov d,
   -landmark.z * visibleWidth fov aspect d⟩

/-- The head-pose basis computed in `updateMask` (lines 430-437):
`yAxis = (foreheadPos - chinPos).normalize()`,
`xAxis = (rightTemplePos - leftTemplePos).normalize()`,
`zAxis = cross(xAxis, yAxis).normalize()`, then the re-orthogonalization
`yAxis = cross(zAxis, xAxis).normalize()`.  `makeBasis(xAxis, yAxis, zAxis)`
uses the triple as (right, up, forward), returned here in that order. -/
noncomputable def poseBasis (chinPos foreheadPos leftTemplePos rightTemplePos : Vec3) :
    Vec3 × Vec3 × Vec3 :=
  let yAxis := (foreheadPos.sub chinPos).normalize
  let xAxis := (rightTemplePos.sub leftTemplePos).normalize
  let zAxis := (xAxis.cross yAxis).normalize
  let yAxis2 := (zAxis.cross xAxis).normalize
  (xAxis, yAxis2, zAxis)

/-- One laser marker: a scene object with a `visible` flag and a position
(`lasers[i].visible`, `lasers[i].position`). -/
structure Marker where
  visible : Bool
  position : Vec3

/-- The mutable state the handlers touch: the `isLaserMode` flag and the two
laser markers (`lasers[0]`, `lasers[1]`). -/
structure AppState where
  isLaserMode : Bool
  leftLaser : Marker
  rightLaser : Marker

/-- State after `initThreeJS`: `isLaserMode = true` (line 19) and both lasers
hidden (`lasers.forEach(l => l.visible = false)`, line 281) at the three.js
default position `(0, 0, 0)`. -/
def initState : AppState :=
  { isLaserMode := true,
    leftLaser := { visible := false, position := ⟨0, 0, 0⟩ },
    rightLaser := { visible := false, position := ⟨0, 0, 0⟩ } }

/-- `lasers.forEach(l => l.visible = false)`: hide both markers, keeping
their positions. -/
def hideLasers (s : AppState) : AppState :=
  { s with leftLaser := { s.leftLaser with visible := false },
           rightLaser := { s.rightLaser with visible := false } }

/-- `toggleLaser()`: flip `isLaserMode`; if the new value is `false`, hide
both lasers.  (The button-color update is pure DOM styling and not part of
the modelled state.) -/
def toggleLaser (s : AppState) : AppState :=
  let s1 := { s with isLaserMode := !s.isLaserMode }
  if s1.isLaserMode then s1 else hideLasers s1

/-- `updateMask(landmarks)`: read the seven required landmark indices
(468, 473, 1, 234, 454, 10, 152); if any is absent, return without touching
the state (line 400).  Otherwise map the eyes and the four pose anchors to
world space, compute the (unused) head-pose rotation, and then either show
both lasers at the eye positions (when `isLaserMode`) or hide both. -/
noncomputable def updateMask (fov aspect : ℝ) (landmarks : FaceObservation)
    (s : AppState) : AppState :=
  match landmarks 468, landmarks 473, landmarks 1, landmarks 234,
        landmarks 454, landmarks 10, landmarks 152 with
  | some leftEye, some rightEye, some _nose, some leftTemple,
    some rightTemple, some forehead, some chin =>
      let leftEyePos := mapToWorld fov aspect baseDepth leftEye
      let rightEyePos := mapToWorld fov aspect baseDepth rightEye
      let chinPos := mapToWorld fov aspect baseDepth chin
      let foreheadPos := mapToWorld fov aspect baseDepth forehead
      let leftTemplePos := mapToWorld fov aspect baseDepth leftTemple
      let rightTemplePos := mapToWorld fov aspect baseDepth rightTemple
      let _rotation := poseBasis chinPos foreheadPos leftTemplePos rightTemplePos
      if s.isLaserMode then
        { s with leftLaser := { visible := true, position := leftEyePos },
                 rightLaser := { visible := true, position := rightEyePos } }
      else
        { s with leftLaser := { s.leftLaser with visible := false },
                 rightLaser := { s.rightLaser with visible := false } }
  | _, _, _, _, _, _, _ => s

/-- The head-pose basis that `updateMask` computes into its local `rotation`
variable (it is never applied to the markers): `some` basis when all seven
required indices are present, `none` when the update returns early. -/
noncomputable def updateMaskPose (fov aspect : ℝ) (landmarks : FaceObservation) :
    Option (Vec3 × Vec3 × Vec3) :=
  match landmarks 468, landmarks 473, landmarks 1, landmarks 234,
        landmarks 454, landmarks 10, landmarks 152 with
  | some _, some _, some _, some leftTemple,
    some rightTemple, some forehead, some chin =>
      some (poseBasis (mapToWorld fov aspect baseDepth chin)
        (mapToWorld fov aspect baseDepth forehead)
        (mapToWorld fov aspect baseDepth leftTemple)
        (mapToWorld fov aspect baseDepth rightTemple))
  | _, _, _, _, _, _, _ => none

/-- `onResults(results)`: if `results.multiFaceLandmarks` exists and is
non-empty, run `updateMask` for each face; otherwise hide both lasers.
(The debug-overlay drawing writes only to the debug canvas.) -/
noncomputable def onResults (fov aspect : ℝ)
    (multiFaceLandmarks : Option (List FaceObservation)) (s : AppState) : AppState :=
  match multiFaceLandmarks with
  | some faces =>
      if 0 < faces.length then
        faces.foldl (fun st lm => updateMask fov aspect lm st) s
      else
        hideLasers s
  | none => hideLasers s

/-- States reachable from initialization by the modelled event handlers:
laser toggles and detection callbacks (with arbitrary camera parameters and
detection results). -/
inductive Reachable : AppState → Prop
  | init : Reachable initState
  | toggle {s : AppState} : Reachable s → Reachable (toggleLaser s)
  | detect {s : AppState} (fov aspect : ℝ)
      (r : Option (List FaceObservation)) :
      Reachable s → Reachable (onResults fov aspect r s)

/-- The implicit mode/visibility invariant: a visible marker implies the
laser mode is on. -/
def laserInvariant (s : AppState) : Prop :=
  (s.leftLaser.visible = true ∨ s.rightLaser.visible = true) → s.isLaserMode = true

/-! Helper lemmas about the vector operations. -/

theorem Vec3.dot_self_nonneg (v : Vec3) : 0 ≤ v.dot v := by
  have hx := mul_self_nonneg v.x
  have hy := mul_self_nonneg v.y
  have hz := mul_self_nonneg v.z
  simp only [Vec3.dot]
  linarith

theorem Vec3.length_eq_zero_iff (v : Vec3) : v.length = 0 ↔ v.dot v = 0 := by
  unfold Vec3.length
  exact Real.sqrt_eq_zero v.dot_self_nonneg

theorem Vec3.length_mul_self (v : Vec3) : v.length * v.length = v.dot v :=
  Real.mul_self_sqrt v.dot_self_nonneg

theorem Vec3.length_eq_one (v : Vec3) (h : v.dot v = 1) : v.length = 1 := by
  unfold Vec3.length
  rw [h, Real.sqrt_one]

theorem Vec3.normalize_of_ne_zero (v : Vec3) (h : v.length ≠ 0) :
    v.normalize = ⟨v.x * (1 / v.length), v.y * (1 / v.length), v.z * (1 / v.length)⟩ := by
  simp only [Vec3.normalize, if_neg h]

theorem Vec3.normalize_dot_self (v : Vec3) (h : v.length ≠ 0) :
    v.normalize.dot v.normalize = 1 := by
  have hd : v.dot v ≠ 0 := fun h0 => h (v.length_eq_zero_iff.mpr h0)
  have hm : v.length * v.length = v.x * v.x + v.y * v.y + v.z * v.z := by
    simpa [Vec3.dot] using v.length_mul_self
  rw [v.normalize_of_ne_zero h]
  simp only [Vec3.dot]
  field_simp
  linarith [hm]

theorem Vec3.normalize_dot_eq (v w : Vec3) :
    v.normalize.dot w = (1 / (if v.length = 0 then 1 else v.length)) * v.dot w := by
  simp only [Vec3.normalize, Vec3.dot]
  ring

theorem Vec3.normalize_dot_eq_zero (v w : Vec3) (h : v.dot w = 0) :
    v.normalize.dot w = 0 := by
  rw [v.normalize_dot_eq w, h, mul_zero]

theorem Vec3.dot_comm (a b : Vec3) : a.dot b = b.dot a := by
  simp only [Vec3.dot]
  ring

theorem Vec3.cross_dot_left (a b : Vec3) : (a.cross b).dot a = 0 := by
  simp only [Vec3.cross, Vec3.dot]
  ring

theorem Vec3.cross_dot_right (a b : Vec3) : (a.cross b).dot b = 0 := by
  simp only [Vec3.cross, Vec3.dot]
  ring

theorem Vec3.cross_dot_self (a b : Vec3) :
    (a.cross b).dot (a.cross b) = a.dot a * b.dot b - a.dot b * a.dot b := by
  simp only [Vec3.cross, Vec3.dot]
  ring

theorem Vec3.sub_self_eq_zero (a : Vec3) : a.sub a = ⟨0, 0, 0⟩ := by
  simp [Vec3.sub]

theorem Vec3.normalize_zero : (⟨0, 0, 0⟩ : Vec3).normalize = ⟨0, 0, 0⟩ := by
  simp [Vec3.normalize, Vec3.length, Vec3.dot]

theorem Vec3.cross_zero_right (a : Vec3) : a.cross ⟨0, 0, 0⟩ = ⟨0, 0, 0⟩ := by
  simp [Vec3.cross]

theorem Vec3.cross_zero_left (a : Vec3) : Vec3.cross ⟨0, 0, 0⟩ a = ⟨0, 0, 0⟩ := by
  simp [Vec3.cross]

theorem Vec3.normalize_of_unit (v : Vec3) (h : v.dot v = 1) : v.normalize = v := by
  have hl : v.length = 1 := v.length_eq_one h
  rw [v.normalize_of_ne_zero (by rw [hl]; norm_num), hl]
  ext <;> simp

/-- Core orthonormality fact behind the pose estimator: from a unit vector
`r` and any vector `u` with `r × u` of nonzero length, the triple
`(r, normalize(normalize(r × u) × r), normalize(r × u))` is orthonormal. -/
theorem orthonormal_of_unit (r u : Vec3) (hr : r.dot r = 1)
    (hc : (r.cross u).length ≠ 0) :
    r.length = 1 ∧
    (((r.cross u).normalize.cross r).normalize).length = 1 ∧
    ((r.cross u).normalize).length = 1 ∧
    r.dot (((r.cross u).normalize.cross r).normalize) = 0 ∧
    r.dot ((r.cross u).normalize) = 0 ∧
    (((r.cross u).normalize.cross r).normalize).dot ((r.cross u).normalize) = 0 := by
  have hff : ((r.cross u).normalize).dot ((r.cross u).normalize) = 1 :=
    Vec3.normalize_dot_self _ hc
  have hfr : ((r.cross u).normalize).dot r = 0 :=
    Vec3.normalize_dot_eq_zero _ _ (Vec3.cross_dot_left r u)
  have hgg : ((r.cross u).normalize.cross r).dot ((r.cross u).normalize.cross r) = 1 := by
    rw [Vec3.cross_dot_self, hff, hr, hfr]
    ring
  have hgl : ((r.cross u).normalize.cross r).length ≠ 0 := by
    rw [Vec3.length_eq_one _ hgg]
    norm_num
  have hu2 : (((r.cross u).normalize.cross r).normalize).dot
      (((r.cross u).normalize.cross r).normalize) = 1 :=
    Vec3.normalize_dot_self _ hgl
  refine ⟨Vec3.length_eq_one _ hr, Vec3.length_eq_one _ hu2,
    Vec3.length_eq_one _ hff, ?_, ?_, ?_⟩
  · rw [Vec3.dot_comm]
    exact Vec3.normalize_dot_eq_zero _ _ (Vec3.cross_dot_right _ r)
  · rw [Vec3.dot_comm]
    exact hfr
  · exact Vec3.normalize_dot_eq_zero _ _ (Vec3.cross_dot_left _ r)

/-! Concrete evaluations used by the axis-aligned scenario. -/

theorem sub_forehead_chin_eval : ((⟨0, 1, 0⟩ : Vec3)).sub ⟨0, -1, 0⟩ = ⟨0, 2, 0⟩ := by
  simp [Vec3.sub]
  norm_num

theorem sub_temples_eval : ((⟨1, 0, 0⟩ : Vec3)).sub ⟨-1, 0, 0⟩ = ⟨2, 0, 0⟩ := by
  simp [Vec3.sub]
  norm_num

theorem length_two_x_eval : ((⟨2, 0, 0⟩ : Vec3)).length = 2 := by
  unfold Vec3.length
  rw [show ((⟨2, 0, 0⟩ : Vec3)).dot ⟨2, 0, 0⟩ = 2 ^ 2 by simp [Vec3.dot]; norm_num,
    Real.sqrt_sq (by norm_num)]

theorem length_two_y_eval : ((⟨0, 2, 0⟩ : Vec3)).length = 2 := by
  unfold Vec3.length
  rw [show ((⟨0, 2, 0⟩ : Vec3)).dot ⟨0, 2, 0⟩ = 2 ^ 2 by simp [Vec3.dot]; norm_num,
    Real.sqrt_sq (by norm_num)]

theorem normalize_two_x_eval : ((⟨2, 0, 0⟩ : Vec3)).normalize = ⟨1, 0, 0⟩ := by
  rw [Vec3.normalize_of_ne_zero _ (by rw [length_two_x_eval]; norm_num), length_two_x_eval]
  ext <;> norm_num

theorem normalize_two_y_eval : ((⟨0, 2, 0⟩ : Vec3)).normalize = ⟨0, 1, 0⟩ := by
  rw [Vec3.normalize_of_ne_zero _ (by rw [length_two_y_eval]; norm_num), length_two_y_eval]
  ext <;> norm_num

theorem cross_x_y_eval : ((⟨1, 0, 0⟩ : Vec3)).cross ⟨0, 1, 0⟩ = ⟨0, 0, 1⟩ := by
  simp [Vec3.cross]

theorem cross_z_x_eval : ((⟨0, 0, 1⟩ : Vec3)).cross ⟨1, 0, 0⟩ = ⟨0, 1, 0⟩ := by
  simp [Vec3.cross]

theorem normalize_unit_z_eval : ((⟨0, 0, 1⟩ : Vec3)).normalize = ⟨0, 0, 1⟩ :=
  Vec3.normalize_of_unit _ (by simp [Vec3.dot])

theorem normalize_unit_y_eval : ((⟨0, 1, 0⟩ : Vec3)).normalize = ⟨0, 1, 0⟩ :=
  Vec3.normalize_of_unit _ (by simp [Vec3.dot])

/-! Characterizations of the per-frame update. -/

theorem updateMask_of_missing (fov aspect : ℝ) (lm : FaceObservation) (s : AppState)
    (h : lm 468 = none ∨ lm 473 = none ∨ lm 1 = none ∨ lm 234 = none ∨
      lm 454 = none ∨ lm 10 = none ∨ lm 152 = none) :
    updateMask fov aspect lm s = s := by
  unfold updateMask
  cases h468 : lm 468 with
  | none => rfl
  | some le =>
  cases h473 : lm 473 with
  | none => rfl
  | some re =>
  cases h1 : lm 1 with
  | none => rfl
  | some no =>
  cases h234 : lm 234 with
  | none => rfl
  | some lt =>
  cases h454 : lm 454 with
  | none => rfl
  | some rt =>
  cases h10 : lm 10 with
  | none => rfl
  | some fh =>
  cases h152 : lm 152 with
  | none => rfl
  | some ch =>
  rcases h with h | h | h | h | h | h | h <;> simp_all

theorem updateMask_present (fov aspect : ℝ) (lm : FaceObservation) (s : AppState)
    (le re no lt rt fh ch : Landmark)
    (h468 : lm 468 = some le) (h473 : lm 473 = some re) (h1 : lm 1 = some no)
    (h234 : lm 234 = some lt) (h454 : lm 454 = some rt) (h10 : lm 10 = some fh)
    (h152 : lm 152 = some ch) :
    updateMask fov aspect lm s =
      if s.isLaserMode then
        { s with
            leftLaser :=
              { visible := true, position := mapToWorld fov aspect baseDepth le },
            rightLaser :=
              { visible := true, position := mapToWorld fov aspect baseDepth re } }
      else
        { s with leftLaser := { s.leftLaser with visible := false },
                 rightLaser := { s.rightLaser with visible := false } } := by
  unfold updateMask
  rw [h468, h473, h1, h234, h454, h10, h152]

theorem updateMask_shape (fov aspect : ℝ) (lm : FaceObservation) (s : AppState) :
    updateMask fov aspect lm s = s ∨
    ∃ le re : Landmark, lm 468 = some le ∧ lm 473 = some re ∧
      updateMask fov aspect lm s =
        (if s.isLaserMode then
          { s with
              leftLaser :=
                { visible := true, position := mapToWorld fov aspect baseDepth le },
              rightLaser :=
                { visible := true, position := mapToWorld fov aspect baseDepth re } }
        else
          { s with leftLaser := { s.leftLaser with visible := false },
                   rightLaser := { s.rightLaser with visible := false } }) := by
  cases h468 : lm 468 with
  | none => exact Or.inl (updateMask_of_missing _ _ _ _ (Or.inl h468))
  | some le =>
  cases h473 : lm 473 with
  | none => exact Or.inl (updateMask_of_missing _ _ _ _ (Or.inr (Or.inl h473)))
  | some re =>
  cases h1 : lm 1 with
  | none => exact Or.inl (updateMask_of_missing _ _ _ _ (Or.inr (Or.inr (Or.inl h1))))
  | some no =>
  cases h234 : lm 234 with
  | none =>
    exact Or.inl (updateMask_of_missing _ _ _ _ (Or.inr (Or.inr (Or.inr (Or.inl h234)))))
  | some lt =>
  cases h454 : lm 454 with
  | none =>
    exact Or.inl (updateMask_of_missing _ _ _ _
      (Or.inr (Or.inr (Or.inr (Or.inr (Or.inl h454))))))
  | some rt =>
  cases h10 : lm 10 with
  | none =>
    exact Or.inl (updateMask_of_missing _ _ _ _
      (Or.inr (Or.inr (Or.inr (Or.inr (Or.inr (Or.inl h10)))))))
  | some fh =>
  cases h152 : lm 152 with
  | none =>
    exact Or.inl (updateMask_of_missing _ _ _ _
      (Or.inr (Or.inr (Or.inr (Or.inr (Or.inr (Or.inr h152)))))))
  | some ch =>
  exact Or.inr ⟨le, re, rfl, rfl,
    updateMask_present fov aspect lm s le re no lt rt fh ch h468 h473 h1 h234 h454 h10 h152⟩

theorem updateMaskPose_present (fov aspect : ℝ) (lm : FaceObservation)
    (le re no lt rt fh ch : Landmark)
    (h468 : lm 468 = some le) (h473 : lm 473 = some re) (h1 : lm 1 = some no)
    (h234 : lm 234 = some lt) (h454 : lm 454 = some rt) (h10 : lm 10 = some fh)
    (h152 : lm 152 = some ch) :
    updateMaskPose fov aspect lm =
      some (poseBasis (mapToWorld fov aspect baseDepth ch)
        (mapToWorld fov aspect baseDepth fh)
        (mapToWorld fov aspect baseDepth lt)
        (mapToWorld fov aspect baseDepth rt)) := by
  unfold updateMaskPose
  rw [h468, h473, h1, h234, h454, h10, h152]

theorem poseBasis_coincident (c lT rT : Vec3) :
    poseBasis c c lT rT = ((rT.sub lT).normalize, ⟨0, 0, 0⟩, ⟨0, 0, 0⟩) := by
  simp only [poseBasis, Vec3.sub_self_eq_zero, Vec3.normalize_zero,
    Vec3.cross_zero_right, Vec3.cross_zero_left]

theorem poseBasis_temples_coincident (c f lT : Vec3) :
    poseBasis c f lT lT = (⟨0, 0, 0⟩, ⟨0, 0, 0⟩, ⟨0, 0, 0⟩) := by
  simp only [poseBasis, Vec3.sub_self_eq_zero, Vec3.normalize_zero,
    Vec3.cross_zero_right, Vec3.cross_zero_left]

theorem onResults_of_no_face (fov aspect : ℝ) (r : Option (List FaceObservation))
    (s : AppState) (h : r = none ∨ r = some []) :
    onResults fov aspect r s = hideLasers s := by
  rcases h with h | h <;> subst h <;> rfl

theorem laserInvariant_hideLasers (s : AppState) : laserInvariant (hideLasers s) := by
  intro h
  rcases h with h | h <;> simp [hideLasers] at h

theorem laserInvariant_updateMask (fov aspect : ℝ) (lm : FaceObservation)
    (s : AppState) (h : laserInvariant s) :
    laserInvariant (updateMask fov aspect lm s) := by
  rcases updateMask_shape fov aspect lm s with heq | ⟨le, re, _, _, heq⟩
  · rw [heq]
    exact h
  · rw [heq]
    cases hm : s.isLaserMode with
    | true =>
      intro _
      simp [hm]
    | false =>
      simp only [hm]
      intro hvis
      rcases hvis with hv | hv <;> simp at hv

theorem laserInvariant_foldl (fov aspect : ℝ) (faces : List FaceObservation)
    (s : AppState) (h : laserInvariant s) :
    laserInvariant (faces.foldl (fun st lm => updateMask fov aspect lm st) s) := by
  induction faces generalizing s with
  | nil => exact h
  | cons a t ih => exact ih _ (laserInvariant_updateMask fov aspect a s h)

theorem laserInvariant_onResults (fov aspect : ℝ) (r : Option (List FaceObservation))
    (s : AppState) (h : laserInvariant s) :
    laserInvariant (onResults fov aspect r s) := by
  cases r with
  | none => exact laserInvariant_hideLasers s
  | some faces =>
    have he : onResults fov aspect (some faces) s =
        if 0 < faces.length then
          faces.foldl (fun st lm => updateMask fov aspect lm st) s
        else hideLasers s := rfl
    rw [he]
    by_cases hl : 0 < faces.length
    · rw [if_pos hl]
      exact laserInvariant_foldl fov aspect faces s h
    · rw [if_neg hl]
      exact laserInvariant_hideLasers s

theorem laserInvariant_toggleLaser (s : AppState) (h : laserInvariant s) :
    laserInvariant (toggleLaser s) := by
  unfold toggleLaser
  cases hm : s.isLaserMode with
  | true =>
    simp only [hm, Bool.not_true, if_neg]
    exact laserInvariant_hideLasers _
  | false =>
    simp only [hm, Bool.not_false, if_pos]
    intro hvis
    rfl

/-! Claim theorems. -/

/-- C1: for every landmark and every vertical field of view (in degrees, as
the camera stores it), aspect ratio and reference depth `d`, the coordinate
mapper returns `(-(x-0.5)*visibleWidth, -(y-0.5)*visibleHeight,
-z*visibleWidth)` with `visibleHeight = 2*tan(fovY/2)*d` (where
`fovY = fov*π/180`) and `visibleWidth = visibleHeight*aspect`; every
landmark with `x = 0.5`, `y = 0.5` maps to `worldX = worldY = 0`; and the
landmark `{x:0.25, y:0.5, z:0}` with a 75-degree field of view,
`aspect = 16/9` and `d = 5` maps to `worldX = -(0.25-0.5)*visibleWidth`
and `worldY = 0`. -/
theorem mapToWorld_contract :
    (∀ (lm : Landmark) (fov aspect d : ℝ),
      mapToWorld fov aspect d lm =
        ⟨-(lm.x - 0.5) * (2 * Real.tan (fov * Real.pi / 180 / 2) * d * aspect),
         -(lm.y - 0.5) * (2 * Real.tan (fov * Real.pi / 180 / 2) * d),
         -lm.z * (2 * Real.tan (fov * Real.pi / 180 / 2) * d * aspect)⟩) ∧
    (∀ (lm : Landmark) (fov aspect d : ℝ), lm.x = 0.5 → lm.y = 0.5 →
      (mapToWorld fov aspect d lm).x = 0 ∧ (mapToWorld fov aspect d lm).y = 0) ∧
    (mapToWorld 75 (16 / 9) 5 ⟨0.25, 0.5, 0⟩).x =
      -(0.25 - 0.5) * visibleWidth 75 (16 / 9) 5 ∧
    (mapToWorld 75 (16 / 9) 5 ⟨0.25, 0.5, 0⟩).y = 0 := by
  refine ⟨fun lm fov aspect d => ?_, fun lm fov aspect d hx hy => ⟨?_, ?_⟩, rfl, ?_⟩
  · ext <;> simp only [mapToWorld, visibleWidth, visibleHeight] <;> ring
  · simp [mapToWorld, hx]
  · simp [mapToWorld, hy]
  · simp only [mapToWorld]
    norm_num

/-- Witness for C1 at the frame-center landmark with the scene's camera
parameters. -/
theorem mapToWorld_contract_witness :
    ((⟨0.5, 0.5, 0⟩ : Landmark)).x = 0.5 ∧
    (mapToWorld 75 (16 / 9) 5 ⟨0.5, 0.5, 0⟩).x = 0 ∧
    (mapToWorld 75 (16 / 9) 5 ⟨0.5, 0.5, 0⟩).y = 0 :=
  ⟨rfl, (mapToWorld_contract.2.1 ⟨0.5, 0.5, 0⟩ 75 (16 / 9) 5 rfl rfl).1,
    (mapToWorld_contract.2.1 ⟨0.5, 0.5, 0⟩ 75 (16 / 9) 5 rfl rfl).2⟩

/-- C9: for a positive reference depth, scaling the depth by a factor `k`
scales `visibleHeight` and `visibleWidth` by `k`, and the `worldX`/`worldY`
of every landmark scale by the same factor. -/
theorem mapToWorld_depth_scaling (fov aspect d k : ℝ) (hd : 0 < d) :
    visibleHeight fov (k * d) = k * visibleHeight fov d ∧
    visibleWidth fov aspect (k * d) = k * visibleWidth fov aspect d ∧
    ∀ lm : Landmark,
      (mapToWorld fov aspect (k * d) lm).x = k * (mapToWorld fov aspect d lm).x ∧
      (mapToWorld fov aspect (k * d) lm).y = k * (mapToWorld fov aspect d lm).y := by
  refine ⟨?_, ?_, fun lm => ⟨?_, ?_⟩⟩ <;>
    · simp only [mapToWorld, visibleWidth, visibleHeight]
      ring

/-- Witness for C9 at depth 5 and factor 2. -/
theorem mapToWorld_depth_scaling_witness :
    (0 : ℝ) < 5 ∧
    visibleHeight 75 (2 * 5) = 2 * visibleHeight 75 5 ∧
    visibleWidth 75 (16 / 9) (2 * 5) = 2 * visibleWidth 75 (16 / 9) 5 :=
  ⟨by norm_num, (mapToWorld_depth_scaling 75 (16 / 9) 5 2 (by norm_num)).1,
    (mapToWorld_depth_scaling 75 (16 / 9) 5 2 (by norm_num)).2.1⟩

/-- C2: for every quadruple of world points whose normalized difference and
cross-product vectors are nonzero, the pose-estimator basis
(right, up, forward) is orthonormal: each axis has unit length and all
pairwise dot products vanish. -/
theorem poseBasis_orthonormal (chinPos foreheadPos leftTemplePos rightTemplePos : Vec3)
    (hUp : (foreheadPos.sub chinPos).length ≠ 0)
    (hRight : (rightTemplePos.sub leftTemplePos).length ≠ 0)
    (hCross : (((rightTemplePos.sub leftTemplePos).normalize).cross
      ((foreheadPos.sub chinPos).normalize)).length ≠ 0) :
    (poseBasis chinPos foreheadPos leftTemplePos rightTemplePos).1.length = 1 ∧
    (poseBasis chinPos foreheadPos leftTemplePos rightTemplePos).2.1.length = 1 ∧
    (poseBasis chinPos foreheadPos leftTemplePos rightTemplePos).2.2.length = 1 ∧
    (poseBasis chinPos foreheadPos leftTemplePos rightTemplePos).1.dot
      (poseBasis chinPos foreheadPos leftTemplePos rightTemplePos).2.1 = 0 ∧
    (poseBasis chinPos foreheadPos leftTemplePos rightTemplePos).1.dot
      (poseBasis chinPos foreheadPos leftTemplePos rightTemplePos).2.2 = 0 ∧
    (poseBasis chinPos foreheadPos leftTemplePos rightTemplePos).2.1.dot
      (poseBasis chinPos foreheadPos leftTemplePos rightTemplePos).2.2 = 0 := by
  have hr : ((rightTemplePos.sub leftTemplePos).normalize).dot
      ((rightTemplePos.sub leftTemplePos).normalize) = 1 :=
    Vec3.normalize_dot_self _ hRight
  exact orthonormal_of_unit _ _ hr hCross

/-- Witness for C2 at the axis-aligned quadruple. -/
theorem poseBasis_orthonormal_witness :
    ((⟨0, 1, 0⟩ : Vec3).sub ⟨0, -1, 0⟩).length ≠ 0 ∧
    ((⟨1, 0, 0⟩ : Vec3).sub ⟨-1, 0, 0⟩).length ≠ 0 ∧
    (poseBasis ⟨0, -1, 0⟩ ⟨0, 1, 0⟩ ⟨-1, 0, 0⟩ ⟨1, 0, 0⟩).1.length = 1 ∧
    (poseBasis ⟨0, -1, 0⟩ ⟨0, 1, 0⟩ ⟨-1, 0, 0⟩ ⟨1, 0, 0⟩).2.1.length = 1 ∧
    (poseBasis ⟨0, -1, 0⟩ ⟨0, 1, 0⟩ ⟨-1, 0, 0⟩ ⟨1, 0, 0⟩).2.2.length = 1 := by
  have hUp : ((⟨0, 1, 0⟩ : Vec3).sub ⟨0, -1, 0⟩).length ≠ 0 := by
    rw [sub_forehead_chin_eval, length_two_y_eval]
    norm_num
  have hRight : ((⟨1, 0, 0⟩ : Vec3).sub ⟨-1, 0, 0⟩).length ≠ 0 := by
    rw [sub_temples_eval, length_two_x_eval]
    norm_num
  have hz : ((⟨0, 0, 1⟩ : Vec3)).dot ⟨0, 0, 1⟩ = 1 := by
    simp [Vec3.dot]
  have hCross : ((((⟨1, 0, 0⟩ : Vec3)).sub ⟨-1, 0, 0⟩).normalize.cross
      (((⟨0, 1, 0⟩ : Vec3)).sub ⟨0, -1, 0⟩).normalize).length ≠ 0 := by
    rw [sub_temples_eval, normalize_two_x_eval, sub_forehead_chin_eval,
      normalize_two_y_eval, cross_x_y_eval, Vec3.length_eq_one _ hz]
    norm_num
  have happ := poseBasis_orthonormal ⟨0, -1, 0⟩ ⟨0, 1, 0⟩ ⟨-1, 0, 0⟩ ⟨1, 0, 0⟩
    hUp hRight hCross
  exact ⟨hUp, hRight, happ.1, happ.2.1, happ.2.2.1⟩

/-- C8: on the already-orthogonal quadruple chin=(0,-1,0), forehead=(0,1,0),
leftTemple=(-1,0,0), rightTemple=(1,0,0) the pose estimator returns
right=(1,0,0), up=(0,1,0), forward=(0,0,1) — the code's consistent sign
convention, `forward = cross(right, up) = +z` — and the re-orthogonalized
up axis equals `normalize(forehead - chin)`, i.e. the re-orthogonalization
step is a no-op on orthogonal inputs. -/
theorem poseBasis_axis_aligned_scenario :
    poseBasis ⟨0, -1, 0⟩ ⟨0, 1, 0⟩ ⟨-1, 0, 0⟩ ⟨1, 0, 0⟩ =
      (⟨1, 0, 0⟩, ⟨0, 1, 0⟩, ⟨0, 0, 1⟩) ∧
    (poseBasis ⟨0, -1, 0⟩ ⟨0, 1, 0⟩ ⟨-1, 0, 0⟩ ⟨1, 0, 0⟩).2.1 =
      ((⟨0, 1, 0⟩ : Vec3).sub ⟨0, -1, 0⟩).normalize := by
  have hb : poseBasis ⟨0, -1, 0⟩ ⟨0, 1, 0⟩ ⟨-1, 0, 0⟩ ⟨1, 0, 0⟩ =
      (⟨1, 0, 0⟩, ⟨0, 1, 0⟩, ⟨0, 0, 1⟩) := by
    simp only [poseBasis, sub_forehead_chin_eval, sub_temples_eval,
      normalize_two_y_eval, normalize_two_x_eval, cross_x_y_eval,
      normalize_unit_z_eval, cross_z_x_eval, normalize_unit_y_eval]
  refine ⟨hb, ?_⟩
  rw [hb, sub_forehead_chin_eval, normalize_two_y_eval]

/-- A landmark at the frame center maps to the world origin. -/
theorem mapToWorld_center_eval (fov aspect d : ℝ) :
    mapToWorld fov aspect d ⟨0.5, 0.5, 0⟩ = ⟨0, 0, 0⟩ := by
  ext <;> simp only [mapToWorld] <;> norm_num

/-- A face observation in which every landmark index carries the same
frame-center landmark, so all four pose anchors coincide. -/
def coincidentObs : FaceObservation := fun _ => some ⟨0.5, 0.5, 0⟩

/-- A face observation missing index 468 (the left iris center) while all
other indices are present. -/
def obsMissingIris : FaceObservation := fun n =>
  if n = 468 then none else some ⟨0.4, 0.5, 0⟩

/-- A state with the laser mode on and both markers visible, as after a
successfully tracked frame. -/
def visibleState : AppState :=
  { isLaserMode := true,
    leftLaser := { visible := true, position := ⟨1, 1, 0⟩ },
    rightLaser := { visible := true, position := ⟨2, 1, 0⟩ } }

/-- A state with the laser mode off and both markers hidden. -/
def laserOffState : AppState :=
  { isLaserMode := false,
    leftLaser := { visible := false, position := ⟨1, 0, 0⟩ },
    rightLaser := { visible := false, position := ⟨2, 0, 0⟩ } }

/-- C3 counterexample: in a frame whose four anchor points all coincide,
the pose update is not skipped — `updateMask` computes a fresh basis from
the degenerate vectors, namely the zero triple (three.js `normalize` maps a
zero-length vector to the zero vector instead of dividing by zero), which is
neither a retained previous pose nor an identity basis, and the marker
update still runs (the left marker becomes visible from the initial hidden
state). -/
theorem updateMask_degenerate_counterexample :
    updateMaskPose 75 (16 / 9) coincidentObs =
      some (⟨0, 0, 0⟩, ⟨0, 0, 0⟩, ⟨0, 0, 0⟩) ∧
    (updateMask 75 (16 / 9) coincidentObs initState).leftLaser.visible = true ∧
    initState.leftLaser.visible = false := by
  have h : ∀ n, coincidentObs n = some ⟨0.5, 0.5, 0⟩ := fun _ => rfl
  refine ⟨?_, ?_, rfl⟩
  · rw [updateMaskPose_present 75 (16 / 9) coincidentObs ⟨0.5, 0.5, 0⟩ ⟨0.5, 0.5, 0⟩
      ⟨0.5, 0.5, 0⟩ ⟨0.5, 0.5, 0⟩ ⟨0.5, 0.5, 0⟩ ⟨0.5, 0.5, 0⟩ ⟨0.5, 0.5, 0⟩
      (h 468) (h 473) (h 1) (h 234) (h 454) (h 10) (h 152),
      mapToWorld_center_eval, poseBasis_coincident, Vec3.sub_self_eq_zero,
      Vec3.normalize_zero]
  · rw [updateMask_present 75 (16 / 9) coincidentObs initState ⟨0.5, 0.5, 0⟩
      ⟨0.5, 0.5, 0⟩ ⟨0.5, 0.5, 0⟩ ⟨0.5, 0.5, 0⟩ ⟨0.5, 0.5, 0⟩ ⟨0.5, 0.5, 0⟩
      ⟨0.5, 0.5, 0⟩ (h 468) (h 473) (h 1) (h 234) (h 454) (h 10) (h 152)]
    rfl

/-- C3 amended: when two anchor points coincide so that a difference vector
has zero length — the forehead and chin world points are equal, or the two
temple world points are equal — and all required indices are present, the
frame is not skipped and no previous pose is retained: normalization is
total (the three.js guard `length() || 1` maps the zero difference vector
to the zero vector), `updateMask` computes a fresh degenerate basis whose
up and forward axes are the zero vector, and the marker update proceeds
exactly as in the non-degenerate case — both markers shown at the eye
positions when the laser mode is on, both hidden when it is off.  The basis
is never applied to the markers, so the degeneracy has no visible effect. -/
theorem updateMask_degenerate_total (fov aspect : ℝ) (lm : FaceObservation)
    (s : AppState) (le re no lt rt fh ch : Landmark)
    (h468 : lm 468 = some le) (h473 : lm 473 = some re) (h1 : lm 1 = some no)
    (h234 : lm 234 = some lt) (h454 : lm 454 = some rt) (h10 : lm 10 = some fh)
    (h152 : lm 152 = some ch)
    (hdeg : mapToWorld fov aspect baseDepth fh = mapToWorld fov aspect baseDepth ch ∨
      mapToWorld fov aspect baseDepth rt = mapToWorld fov aspect baseDepth lt) :
    (∃ rightAxis : Vec3,
      updateMaskPose fov aspect lm = some (rightAxis, ⟨0, 0, 0⟩, ⟨0, 0, 0⟩)) ∧
    updateMask fov aspect lm s =
      (if s.isLaserMode then
        { s with
            leftLaser :=
              { visible := true, position := mapToWorld fov aspect baseDepth le },
            rightLaser :=
              { visible := true, position := mapToWorld fov aspect baseDepth re } }
      else
        { s with leftLaser := { s.leftLaser with visible := false },
                 rightLaser := { s.rightLaser with visible := false } }) := by
  refine ⟨?_, updateMask_present fov aspect lm s le re no lt rt fh ch
    h468 h473 h1 h234 h454 h10 h152⟩
  rw [updateMaskPose_present fov aspect lm le re no lt rt fh ch
    h468 h473 h1 h234 h454 h10 h152]
  rcases hdeg with hdeg | hdeg
  · rw [hdeg, poseBasis_coincident]
    exact ⟨((mapToWorld fov aspect baseDepth rt).sub
      (mapToWorld fov aspect baseDepth lt)).normalize, rfl⟩
  · rw [hdeg, poseBasis_temples_coincident]
    exact ⟨⟨0, 0, 0⟩, rfl⟩

/-- Witness for the amended C3 at the coincident-anchor observation and the
initial state. -/
theorem updateMask_degenerate_total_witness :
    (∃ rightAxis : Vec3,
      updateMaskPose 75 (16 / 9) coincidentObs =
        some (rightAxis, ⟨0, 0, 0⟩, ⟨0, 0, 0⟩)) ∧
    updateMask 75 (16 / 9) coincidentObs initState =
      (if initState.isLaserMode then
        { initState with
            leftLaser :=
              { visible := true,
                position := mapToWorld 75 (16 / 9) baseDepth ⟨0.5, 0.5, 0⟩ },
            rightLaser :=
              { visible := true,
                position := mapToWorld 75 (16 / 9) baseDepth ⟨0.5, 0.5, 0⟩ } }
      else
        { initState with
            leftLaser := { initState.leftLaser with visible := false },
            rightLaser := { initState.rightLaser with visible := false } }) :=
  updateMask_degenerate_total 75 (16 / 9) coincidentObs initState
    ⟨0.5, 0.5, 0⟩ ⟨0.5, 0.5, 0⟩ ⟨0.5, 0.5, 0⟩ ⟨0.5, 0.5, 0⟩ ⟨0.5, 0.5, 0⟩
    ⟨0.5, 0.5, 0⟩ ⟨0.5, 0.5, 0⟩ rfl rfl rfl rfl rfl rfl rfl (Or.inl rfl)

/-- C4: if any required anchor index (468, 473, 1, 234, 454, 10, 152) is
absent from the observation, the per-frame update returns without modifying
either marker's position or visibility: the state after the update equals
the state before it. -/
theorem updateMask_missing_anchor_noop (fov aspect : ℝ) (lm : FaceObservation)
    (s : AppState)
    (h : lm 468 = none ∨ lm 473 = none ∨ lm 1 = none ∨ lm 234 = none ∨
      lm 454 = none ∨ lm 10 = none ∨ lm 152 = none) :
    updateMask fov aspect lm s = s :=
  updateMask_of_missing fov aspect lm s h

/-- Witness for C4 at an observation missing index 468. -/
theorem updateMask_missing_anchor_noop_witness :
    obsMissingIris 468 = none ∧
    updateMask 75 (16 / 9) obsMissingIris visibleState = visibleState :=
  ⟨rfl, updateMask_missing_anchor_noop 75 (16 / 9) obsMissingIris visibleState
    (Or.inl rfl)⟩

/-- C5 counterexample: processing an observation that is missing required
index 468 does not hide the markers — from a state with both markers
visible, both are still visible afterwards. -/
theorem updateMask_missing_not_hidden_counterexample :
    (updateMask 75 (16 / 9) obsMissingIris visibleState).leftLaser.visible = true ∧
    (updateMask 75 (16 / 9) obsMissingIris visibleState).rightLaser.visible = true := by
  rw [updateMask_of_missing 75 (16 / 9) obsMissingIris visibleState (Or.inl rfl)]
  exact ⟨rfl, rfl⟩

/-- C5 amended: an observation with a missing required index is treated as
invalid only in the sense that the frame is skipped — the per-frame update
leaves the whole marker state (visibility included) unchanged.  The markers
are not hidden by this path; hiding happens only in the no-face branch of
the detection callback. -/
theorem updateMask_invalid_observation_skips (fov aspect : ℝ)
    (lm : FaceObservation) (s : AppState)
    (h : lm 468 = none ∨ lm 473 = none ∨ lm 1 = none ∨ lm 234 = none ∨
      lm 454 = none ∨ lm 10 = none ∨ lm 152 = none) :
    updateMask fov aspect lm s = s ∧
    (updateMask fov aspect lm s).leftLaser.visible = s.leftLaser.visible ∧
    (updateMask fov aspect lm s).rightLaser.visible = s.rightLaser.visible := by
  have he := updateMask_of_missing fov aspect lm s h
  exact ⟨he, by rw [he], by rw [he]⟩

/-- Witness for the amended C5 at an observation missing index 468. -/
theorem updateMask_invalid_observation_skips_witness :
    obsMissingIris 468 = none ∧
    updateMask 75 (16 / 9) obsMissingIris visibleState = visibleState :=
  ⟨rfl, (updateMask_invalid_observation_skips 75 (16 / 9) obsMissingIris
    visibleState (Or.inl rfl)).1⟩

/-- C6: toggling the laser mode from on to off immediately sets both
markers' visibility to false — whatever the markers' current positions and
visibility — and leaves their positions untouched; no detection callback is
involved. -/
theorem toggleLaser_off_hides (s : AppState) (h : s.isLaserMode = true) :
    (toggleLaser s).isLaserMode = false ∧
    (toggleLaser s).leftLaser.visible = false ∧
    (toggleLaser s).rightLaser.visible = false ∧
    (toggleLaser s).leftLaser.position = s.leftLaser.position ∧
    (toggleLaser s).rightLaser.position = s.rightLaser.position := by
  have he : toggleLaser s = hideLasers { s with isLaserMode := !s.isLaserMode } := by
    unfold toggleLaser
    rw [h]
    rfl
  rw [he, h]
  exact ⟨rfl, rfl, rfl, rfl, rfl⟩

/-- Witness for C6 at a state with the laser on and both markers visible. -/
theorem toggleLaser_off_hides_witness :
    visibleState.isLaserMode = true ∧
    (toggleLaser visibleState).leftLaser.visible = false ∧
    (toggleLaser visibleState).rightLaser.visible = false :=
  ⟨rfl, (toggleLaser_off_hides visibleState rfl).2.1,
    (toggleLaser_off_hides visibleState rfl).2.2.1⟩

/-- C7: a detection callback with no face observation (the face list absent
or empty) forces both markers invisible while leaving their positions and
the mode flag untouched, and skips the mapping and pose steps entirely (the
result is exactly the hide-both-markers state). -/
theorem onResults_no_face_hides (fov aspect : ℝ)
    (r : Option (List FaceObservation)) (s : AppState)
    (h : r = none ∨ r = some []) :
    onResults fov aspect r s = hideLasers s ∧
    (onResults fov aspect r s).leftLaser.visible = false ∧
    (onResults fov aspect r s).rightLaser.visible = false ∧
    (onResults fov aspect r s).leftLaser.position = s.leftLaser.position ∧
    (onResults fov aspect r s).rightLaser.position = s.rightLaser.position ∧
    (onResults fov aspect r s).isLaserMode = s.isLaserMode := by
  have he := onResults_of_no_face fov aspect r s h
  rw [he]
  exact ⟨rfl, rfl, rfl, rfl, rfl, rfl⟩

/-- Witness for C7 at an absent face list. -/
theorem onResults_no_face_hides_witness :
    (onResults 75 (16 / 9) none visibleState).leftLaser.visible = false ∧
    (onResults 75 (16 / 9) none visibleState).rightLaser.visible = false :=
  ⟨(onResults_no_face_hides 75 (16 / 9) none visibleState (Or.inl rfl)).2.1,
    (onResults_no_face_hides 75 (16 / 9) none visibleState (Or.inl rfl)).2.2.1⟩

/-- C10: at every state reachable from initialization via laser toggles and
detection callbacks, a visible marker implies the laser mode is on; and
toggling the laser mode from off to on does not by itself restore marker
visibility — both markers keep the visibility they had. -/
theorem reachable_laser_visibility_invariant :
    (∀ s : AppState, Reachable s → laserInvariant s) ∧
    ∀ s : AppState, s.isLaserMode = false →
      (toggleLaser s).leftLaser.visible = s.leftLaser.visible ∧
      (toggleLaser s).rightLaser.visible = s.rightLaser.visible := by
  constructor
  · intro s hs
    induction hs with
    | init =>
      intro h
      simp [initState] at h
    | toggle _ ih => exact laserInvariant_toggleLaser _ ih
    | detect fov aspect r _ ih => exact laserInvariant_onResults fov aspect r _ ih
  · intro s h
    have he : toggleLaser s = { s with isLaserMode := !s.isLaserMode } := by
      unfold toggleLaser
      rw [h]
      rfl
    rw [he]
    exact ⟨rfl, rfl⟩

/-- Witness for C10 at the initial state and a laser-off state. -/
theorem reachable_laser_visibility_invariant_witness :
    laserInvariant initState ∧
    (toggleLaser laserOffState).leftLaser.visible = laserOffState.leftLaser.visible ∧
    (toggleLaser laserOffState).rightLaser.visible = laserOffState.rightLaser.visible :=
  ⟨reachable_laser_visibility_invariant.1 initState Reachable.init,
    (reachable_laser_visibility_invariant.2 laserOffState rfl).1,
    (reachable_laser_visibility_invariant.2 laserOffState rfl).2⟩
